import Mathlib

/-!
Shallow embedding of the clanker-town repository's core:
the Move module `game_nft::resource_game` (on-chain generators, resources
and trades) and the TypeScript agent backend (`GameWorld`,
`SuiGameService`, `WorldContextServiceExtended`).

Move `u64` arithmetic is modelled as `Nat` with explicit checked
operations that return `none` exactly where the Move VM would abort
(overflow, underflow); a Move transaction that aborts rolls back all of
its effects, so every entry function is modelled as a total Lean
function into `Option`, where `none` means "aborted, no state change".
-/

namespace resource_game

/-- Upper bound of the Move `u64` type: values live in `[0, 2^64)`. -/
def u64Limit : ℕ := 2 ^ 64

/-- Checked `u64` addition: aborts (returns `none`) on overflow. -/
def chkAdd (a b : ℕ) : Option ℕ :=
  if a + b < u64Limit then some (a + b) else none

/-- Checked `u64` subtraction: aborts (returns `none`) on underflow. -/
def chkSub (a b : ℕ) : Option ℕ :=
  if b ≤ a then some (a - b) else none

/-- Checked `u64` multiplication: aborts (returns `none`) on overflow. -/
def chkMul (a b : ℕ) : Option ℕ :=
  if a * b < u64Limit then some (a * b) else none

/-- Module constant `GENERATION_INTERVAL_MS` (one minute). -/
def GENERATION_INTERVAL_MS : ℕ := 60000

/-- Module constant `BASE_GENERATION`. -/
def BASE_GENERATION : ℕ := 10

/-- Module constant `BASE_CAP`. -/
def BASE_CAP : ℕ := 1000

/-- Resource type tag `WOOD`. -/
def WOOD : ℕ := 0

/-- Resource type tag `STONE`. -/
def STONE : ℕ := 1

/-- The `@0x0` sentinel address (addresses are modelled as strings). -/
def zeroAddress : String := "0x0"

/-- The `GameMatch` shared object; `id` models its `UID`. -/
structure GameMatch where
  id : String
  creator : String
  participants : List String
deriving DecidableEq

/-- The `PlayerResources` owned object. -/
structure PlayerResources where
  game_id : String
  owner : String
  wood : ℕ
  stone : ℕ
  emerald : ℕ
deriving DecidableEq

/-- The `Generator` shared object. -/
structure Generator where
  game_id : String
  resource_type : ℕ
  x : ℕ
  y : ℕ
  owner : String
  level : ℕ
  generation_rate : ℕ
  max_cap : ℕ
  unclaimed : ℕ
  last_claim_time : ℕ
  last_recaptured_by : String
  last_recaptured_from : String
deriving DecidableEq

/-- The `TradeProposal` shared object. -/
structure TradeProposal where
  game_id : String
  proposer : String
  target : String
  wood_offered : ℕ
  stone_offered : ℕ
  emerald_offered : ℕ
  wood_requested : ℕ
  stone_requested : ℕ
  emerald_requested : ℕ
deriving DecidableEq

/-- One generator as built by the loop body of `create_generators`. -/
def mkGenerator (game_id : String) (resource_type x y now : ℕ) : Generator :=
  { game_id := game_id
    resource_type := resource_type
    x := x
    y := y
    owner := zeroAddress
    level := 0
    generation_rate := BASE_GENERATION
    max_cap := BASE_CAP
    unclaimed := 0
    last_claim_time := now
    last_recaptured_by := zeroAddress
    last_recaptured_from := zeroAddress }

/-- Entry `create_generators`: only the match creator may call it; the
loop reads `y_coords` at every index of `x_coords`, so a shorter
`y_coords` vector makes `vector::borrow` abort. -/
def create_generators (game : GameMatch) (sender : String)
    (resource_type : ℕ) (x_coords y_coords : List ℕ) (now : ℕ) :
    Option (List Generator) :=
  if sender = game.creator then
    if x_coords.length ≤ y_coords.length then
      some ((x_coords.zip y_coords).map
        (fun p => mkGenerator game.id resource_type p.1 p.2 now))
    else none
  else none

/-- Entry `claim_generator`. -/
def claim_generator (game : GameMatch) (g : Generator) (sender : String)
    (now : ℕ) : Option Generator :=
  if sender ∈ game.participants then
    if g.owner = zeroAddress then
      some { g with owner := sender, last_claim_time := now }
    else none
  else none

/-- Accrual settlement shared (textually duplicated line for line in the
source) by `claim_resources` and `recapture_generator`: elapsed whole
intervals times the rate, added to `unclaimed`, capped at `max_cap`. -/
def settleAmount (g : Generator) (now : ℕ) : Option ℕ :=
  (chkSub now g.last_claim_time).bind fun time_diff =>
  (chkMul (time_diff / GENERATION_INTERVAL_MS) g.generation_rate).bind
    fun generated =>
  (chkAdd g.unclaimed generated).bind fun total =>
  some (if total > g.max_cap then g.max_cap else total)

/-- The `if resource_type == WOOD / STONE / else` payout chain, again
textually duplicated in `claim_resources` and `recapture_generator`. -/
def addResource (pr : PlayerResources) (rt amount : ℕ) :
    Option PlayerResources :=
  if rt = WOOD then (chkAdd pr.wood amount).map (fun w => { pr with wood := w })
  else if rt = STONE then (chkAdd pr.stone amount).map (fun s => { pr with stone := s })
  else (chkAdd pr.emerald amount).map (fun e => { pr with emerald := e })

/-- Entry `claim_resources`. -/
def claim_resources (g : Generator) (pr : PlayerResources) (sender : String)
    (now : ℕ) : Option (Generator × PlayerResources) :=
  if g.owner = sender then
    if pr.owner = sender then
      (settleAmount g now).bind fun to_claim =>
      if to_claim > 0 then
        (addResource pr g.resource_type to_claim).bind fun pr2 =>
        some ({ g with unclaimed := 0, last_claim_time := now }, pr2)
      else some (g, pr)
    else none
  else none

/-- Entry `recapture_generator`. -/
def recapture_generator (game : GameMatch) (g : Generator)
    (ar : PlayerResources) (sender : String) (now : ℕ) :
    Option (Generator × PlayerResources) :=
  if sender ∈ game.participants then
    if g.owner ≠ zeroAddress then
      if g.owner ≠ sender then
        let previous_owner := g.owner
        (settleAmount g now).bind fun stolen =>
        ((if stolen > 0 then addResource ar g.resource_type stolen
          else some ar)).bind fun ar2 =>
        some
          ({ g with
              owner := sender
              level := 0
              generation_rate := BASE_GENERATION
              max_cap := BASE_CAP
              unclaimed := 0
              last_claim_time := now
              last_recaptured_by := sender
              last_recaptured_from := previous_owner }, ar2)
      else none
    else none
  else none

/-- Entry `accept_trade`: all precondition asserts, then the six checked
balance updates in source order (the Move VM rolls back every effect of
an aborting transaction, so a single `Option` chain is faithful); a
successful call consumes (destroys) the proposal object. -/
def accept_trade (proposal : TradeProposal) (pr ar : PlayerResources)
    (sender : String) : Option (PlayerResources × PlayerResources) :=
  if sender = proposal.target then
  if ar.owner = sender then
  if pr.owner = proposal.proposer then
  if proposal.wood_offered ≤ pr.wood then
  if proposal.stone_offered ≤ pr.stone then
  if proposal.emerald_offered ≤ pr.emerald then
  if proposal.wood_requested ≤ ar.wood then
  if proposal.stone_requested ≤ ar.stone then
  if proposal.emerald_requested ≤ ar.emerald then
    (chkSub pr.wood proposal.wood_offered).bind fun pw1 =>
    (chkAdd pw1 proposal.wood_requested).bind fun pw =>
    (chkSub pr.stone proposal.stone_offered).bind fun ps1 =>
    (chkAdd ps1 proposal.stone_requested).bind fun ps =>
    (chkSub pr.emerald proposal.emerald_offered).bind fun pe1 =>
    (chkAdd pe1 proposal.emerald_requested).bind fun pe =>
    (chkAdd ar.wood proposal.wood_offered).bind fun aw1 =>
    (chkSub aw1 proposal.wood_requested).bind fun aw =>
    (chkAdd ar.stone proposal.stone_offered).bind fun as1 =>
    (chkSub as1 proposal.stone_requested).bind fun asv =>
    (chkAdd ar.emerald proposal.emerald_offered).bind fun ae1 =>
    (chkSub ae1 proposal.emerald_requested).bind fun ae =>
    some ({ pr with wood := pw, stone := ps, emerald := pe },
          { ar with wood := aw, stone := asv, emerald := ae })
  else none else none else none else none else none else none
  else none else none else none

/-- Generator states reachable through the entry functions named by the
spec: created by `create_generators`, then mutated by `claim_generator`,
`claim_resources` or `recapture_generator` (each `some` result is a
settled, non-aborted call). -/
inductive ReachableGen : Generator → Prop
  | created (game : GameMatch) (sender : String) (rt : ℕ) (xs ys : List ℕ)
      (now : ℕ) (gens : List Generator) (g : Generator)
      (hc : create_generators game sender rt xs ys now = some gens)
      (hm : g ∈ gens) : ReachableGen g
  | claimed (game : GameMatch) (g : Generator) (sender : String) (now : ℕ)
      (g' : Generator) (h : claim_generator game g sender now = some g')
      (hr : ReachableGen g) : ReachableGen g'
  | settled (g : Generator) (pr : PlayerResources) (sender : String) (now : ℕ)
      (g' : Generator) (pr' : PlayerResources)
      (h : claim_resources g pr sender now = some (g', pr'))
      (hr : ReachableGen g) : ReachableGen g'
  | recaptured (game : GameMatch) (g : Generator) (ar : PlayerResources)
      (sender : String) (now : ℕ) (g' : Generator) (ar' : PlayerResources)
      (h : recapture_generator game g ar sender now = some (g', ar'))
      (hr : ReachableGen g) : ReachableGen g'

/-- Concrete match used by the C6 witness. -/
def gameW : GameMatch := ⟨"game1", "alice", ["alice", "bob"]⟩

/-- Concrete freshly created generator used by the C6 witness. -/
def genW : Generator := mkGenerator "game1" 0 3 4 77

/-- Concrete trade proposal used by the C7 witness. -/
def trW : TradeProposal := ⟨"g", "alice", "bob", 3, 0, 1, 0, 2, 0⟩

/-- Concrete proposer resources used by the C7 witness. -/
def prW : PlayerResources := ⟨"g", "alice", 10, 5, 4⟩

/-- Concrete accepter resources used by the C7 witness. -/
def arW : PlayerResources := ⟨"g", "bob", 7, 9, 2⟩

/-- Concrete near-limit trade proposal: it offers nothing and requests
`2^64 - 1` wood from an accepter who holds exactly that. -/
def trBig : TradeProposal := ⟨"g", "alice", "bob", 0, 0, 0, u64Limit - 1, 0, 0⟩

/-- Concrete proposer resources holding `2^64 - 1` wood. -/
def prBig : PlayerResources := ⟨"g", "alice", u64Limit - 1, 0, 0⟩

/-- Concrete accepter resources holding `2^64 - 1` wood. -/
def arBig : PlayerResources := ⟨"g", "bob", u64Limit - 1, 0, 0⟩

end resource_game

/-- JavaScript `String.prototype.toLowerCase`, restricted to the ASCII
range actually exercised by addresses and keyword lists (character-list
map, extensionally `String.map Char.toLower`). -/
def jsToLower (s : String) : String := String.mk (s.data.map Char.toLower)

/-- JavaScript `String.prototype.includes`: substring containment. -/
def jsIncludes (hay needle : String) : Bool :=
  decide (List.IsInfix needle.data hay.data)

/-- JavaScript truthiness of an optional string field: `undefined` and
the empty string are falsy, every other string is truthy. -/
def strTruthy : Option String → Bool
  | none => false
  | some s => !(s == "")

/-- JS object positions; coordinates are JS numbers, idealised as ℚ. -/
structure Position where
  x : ℚ
  y : ℚ
deriving DecidableEq

/-- The TS `GeneratorInfo` interface (a deserialised on-chain Generator). -/
structure GeneratorInfo where
  objectId : String
  gameId : String
  resourceType : ℕ
  x : ℚ
  y : ℚ
  owner : String
  level : ℕ
  generationRate : ℕ
  maxCap : ℕ
  unclaimed : ℕ
  lastClaimTime : ℕ
  lastRecapturedBy : String
  lastRecapturedFrom : String
deriving DecidableEq

/-- The TS `SpriteSheet` interface. -/
structure SpriteSheet where
  url : String
  frameCount : ℕ
  frameWidth : ℕ
  frameHeight : ℕ
  fps : Option ℕ
  loop : Option Bool
  columns : Option ℕ
deriving DecidableEq

/-- The TS `WorldItem` interface. -/
structure WorldItem where
  id : String
  name : String
  position : Position
  imageUrl : Option String
  spriteSheet : Option SpriteSheet
  size : Option ℚ
  interactive : Option Bool
  description : Option String
  collectedBy : Option String
  collectedAt : Option ℕ
deriving DecidableEq

/-- The TS `GameAgent` interface. -/
structure GameAgent where
  id : String
  lettaAgentId : String
  name : String
  position : Position
  description : String
  createdAt : ℕ
  suiAddress : String
  suiPublicKey : String
  suiPrivateKey : String
deriving DecidableEq

/-- Mutable state of the TS `GameWorld` class: the two keyed maps (as
insertion-ordered lists), the world bounds, and a freshness counter
modelling `uuidv4` (uuids are injective fresh names, never of the form
`gen_` + objectId). -/
structure GameWorld where
  agents : List GameAgent
  items : List WorldItem
  worldWidth : ℚ
  worldHeight : ℚ
  nextId : ℕ
deriving DecidableEq

/-- Fresh id drawn from the uuid source. -/
def uuid (n : ℕ) : String := "uuid-" ++ toString n

namespace GameWorld

/-- Method `getAllAgents`. -/
def getAllAgents (w : GameWorld) : List GameAgent := w.agents

/-- Method `getAllItems`: filters out items with a truthy `collectedBy`. -/
def getAllItems (w : GameWorld) : List WorldItem :=
  w.items.filter (fun item => !(strTruthy item.collectedBy))

/-- Euclidean distance used by every range query and context section. -/
noncomputable def euclid (a b : Position) : ℝ :=
  Real.sqrt ((((a.x : ℝ) - (b.x : ℝ)) ^ 2 + ((a.y : ℝ) - (b.y : ℝ)) ^ 2))

/-- Method `getAgentsInRange`. -/
noncomputable def getAgentsInRange (w : GameWorld) (position : Position)
    (range : ℚ) : List GameAgent :=
  (getAllAgents w).filter
    (fun agent => decide (euclid agent.position position ≤ (range : ℝ)))

/-- Method `getItemsInRange`. -/
noncomputable def getItemsInRange (w : GameWorld) (position : Position)
    (range : ℚ) : List WorldItem :=
  (getAllItems w).filter
    (fun item => decide (euclid item.position position ≤ (range : ℝ)))

/-- Method `getRandomPosition`: `Math.random()` draws are passed in as
`r1, r2 ∈ [0, 1)`. -/
def getRandomPosition (w : GameWorld) (r1 r2 : ℚ) : Position :=
  ⟨((⌊r1 * w.worldWidth⌋ : ℤ) : ℚ), ((⌊r2 * w.worldHeight⌋ : ℤ) : ℚ)⟩

/-- Method `addItem`: the stored item always gets a fresh uuid id,
whatever the caller passed (`Omit<WorldItem, "id">`). -/
def addItem (w : GameWorld) (item : WorldItem) : GameWorld × WorldItem :=
  let newItem := { item with id := uuid w.nextId }
  ({ w with items := w.items ++ [newItem], nextId := w.nextId + 1 }, newItem)

/-- Method `addAgent`: a caller-supplied position is stored as given;
only the absent case draws a random in-bounds position. -/
def addAgent (w : GameWorld) (lettaAgentId name description suiAddress
    suiPublicKey suiPrivateKey : String) (position : Option Position)
    (r1 r2 : ℚ) (now : ℕ) : GameWorld × GameAgent :=
  let randomPosition :=
    match position with
    | some p => p
    | none => getRandomPosition w r1 r2
  let agent : GameAgent :=
    { id := uuid w.nextId
      lettaAgentId := lettaAgentId
      name := name
      position := randomPosition
      description := description
      createdAt := now
      suiAddress := suiAddress
      suiPublicKey := suiPublicKey
      suiPrivateKey := suiPrivateKey }
  ({ w with agents := w.agents ++ [agent], nextId := w.nextId + 1 }, agent)

/-- Method `updateAgentPosition`: clamps both coordinates into
`[0, worldWidth] × [0, worldHeight]` before storing. -/
def updateAgentPosition (w : GameWorld) (agentId : String)
    (position : Position) : GameWorld × Option GameAgent :=
  match w.agents.find? (fun a => a.id == agentId) with
  | none => (w, none)
  | some agent =>
    let agent2 :=
      { agent with
          position :=
            ⟨max 0 (min position.x w.worldWidth),
             max 0 (min position.y w.worldHeight)⟩ }
    ({ w with
        agents := w.agents.map (fun a => if a.id == agentId then agent2 else a) },
     some agent2)

/-- A position lies inside this world's bounds. -/
def inBounds (w : GameWorld) (p : Position) : Prop :=
  0 ≤ p.x ∧ p.x ≤ w.worldWidth ∧ 0 ≤ p.y ∧ p.y ≤ w.worldHeight

end GameWorld

namespace SuiGameService

/-- Resource-name switch of `SuiGameService.getResourceName`. -/
def getResourceName (resourceType : ℕ) : String :=
  if resourceType = 0 then "Wood"
  else if resourceType = 1 then "Stone"
  else if resourceType = 2 then "Emerald"
  else "Unknown"

/-- The object literal built for each generator inside
`syncGeneratorsToWorld` (its `id` field is absent in the source —
`Omit<WorldItem, "id">` — and is overwritten by `addItem`). -/
def generatorProjection (gen : GeneratorInfo) : WorldItem :=
  let resourceName := getResourceName gen.resourceType
  let ownerName :=
    if gen.owner = "0x0" then "Unclaimed"
    else "Owner: " ++ gen.owner.take 8 ++ "..."
  { id := ""
    name := resourceName ++ " Generator"
    position := ⟨gen.x, gen.y⟩
    imageUrl := none
    spriteSheet := some
      { url := "/assets/generator_" ++ jsToLower resourceName ++ ".png"
        frameCount := 8
        frameWidth := 64
        frameHeight := 64
        fps := some 8
        loop := some true
        columns := none }
    size := some 6
    interactive := some true
    description := some
      ("Level " ++ toString gen.level ++ " " ++ resourceName ++
       " Generator. " ++ ownerName ++ ". Rate: " ++
       toString gen.generationRate ++ "/min. Unclaimed: " ++
       toString gen.unclaimed ++ "/" ++ toString gen.maxCap)
    collectedBy := if gen.owner ≠ "0x0" then some gen.owner else none
    collectedAt := none }

/-- The `Object.assign(existingItem, item)` branch: it copies exactly
the keys present in the source literal, so `imageUrl` and `collectedAt`
of the existing item survive while the id is untouched. -/
def assignProjection (it : WorldItem) (gen : GeneratorInfo) : WorldItem :=
  let p := generatorProjection gen
  { it with
      name := p.name
      position := p.position
      spriteSheet := p.spriteSheet
      size := p.size
      interactive := p.interactive
      description := p.description
      collectedBy := p.collectedBy }

/-- One iteration of the `for (const gen of generators)` loop of
`syncGeneratorsToWorld`: look the projection up among the non-collected
items under the id `gen_` + objectId, update in place on a hit,
otherwise `addItem`. -/
def syncOne (w : GameWorld) (gen : GeneratorInfo) : GameWorld :=
  match (GameWorld.getAllItems w).find?
      (fun item => item.id == "gen_" ++ gen.objectId) with
  | some existingItem =>
    { w with
        items := w.items.map
          (fun it => if it.id == existingItem.id then assignProjection it gen
                     else it) }
  | none => (GameWorld.addItem w (generatorProjection gen)).1

/-- Method `syncGeneratorsToWorld`, parametrised by the current game id
and the generator list the ledger returned for it. -/
def syncGeneratorsToWorld (currentGameId : Option String)
    (generators : List GeneratorInfo) (w : GameWorld) : GameWorld :=
  match currentGameId with
  | none => w
  | some _ => generators.foldl syncOne w

/-- Participant record read from the match object
(`fields.creator`, `fields.participants`). -/
structure MatchRecord where
  creator : String
  participants : List String
deriving DecidableEq

/-- The TS `PlayerResourcesInfo` interface. -/
structure PlayerResourcesInfo where
  objectId : String
  gameId : String
  owner : String
  wood : ℕ
  stone : ℕ
  emerald : ℕ
deriving DecidableEq

/-- The TS `TradeProposalInfo` interface. -/
structure TradeProposalInfo where
  objectId : String
  gameId : String
  proposer : String
  target : String
  woodOffered : ℕ
  stoneOffered : ℕ
  emeraldOffered : ℕ
  woodRequested : ℕ
  stoneRequested : ℕ
  emeraldRequested : ℕ
deriving DecidableEq

/-- The TS `GameMatchInfo` interface. -/
structure GameMatchInfo where
  objectId : String
  creator : String
  participants : List String
deriving DecidableEq

/-- The ledger RPCs the service performs, modelled at the `SuiClient`
boundary; `Except.error` is a thrown/failed RPC call. -/
structure SuiClientModel where
  matchObject : String → Except Unit (Option MatchRecord)
  ownedGenerators : String → Except Unit (List GeneratorInfo)
  ownedResources : String → Except Unit (List PlayerResourcesInfo)
  ownedTradeProposals : String → Except Unit (List TradeProposalInfo)

/-- List returned by a query, empty on error. -/
def exceptList {α : Type} : Except Unit (List α) → List α
  | .ok l => l
  | .error _ => []

/-- The participant loop of `getAllGenerators`: the whole loop sits in
one try block, so an RPC error keeps the generators accumulated so far. -/
def collectGenerators (client : SuiClientModel) (gameId : String) :
    List String → List GeneratorInfo → List GeneratorInfo
  | [], acc => acc
  | p :: ps, acc =>
    match client.ownedGenerators p with
    | .error _ => acc
    | .ok objs =>
      collectGenerators client gameId ps
        (acc ++ objs.filter (fun g => g.gameId == gameId))

/-- Method `getAllGenerators`: fetch the match object, then enumerate
its declared participants' owned Generator objects, keeping those whose
embedded `game_id` equals the requested match; every failure path is
caught and yields what was collected so far. -/
def getAllGenerators (client : SuiClientModel) (gameId : String) :
    List GeneratorInfo :=
  match client.matchObject gameId with
  | .error _ => []
  | .ok none => []
  | .ok (some m) => collectGenerators client gameId m.participants []

end SuiGameService

/-- World used by the C9 theorems: the default 100 by 100 world. -/
def worldW : GameWorld := ⟨[], [], 100, 100, 0⟩

/-- Collected item used by the C10 witness. -/
def itemC : WorldItem :=
  ⟨"i1", "Chest", ⟨1, 2⟩, none, none, none, some true, none,
   some "0xabc", none⟩

/-- World used by the C10 witness. -/
def worldC : GameWorld := ⟨[], [itemC], 100, 100, 0⟩

/-- Claimed generator used by the C10 witness. -/
def genClaimed : GeneratorInfo :=
  ⟨"gC", "game1", 2, 7, 8, "0xbbbb1111", 1, 10, 1000, 0, 0, "0x0", "0x0"⟩

/-- Ledger snapshot used by the C1 theorem: one unclaimed generator. -/
def gen1 : GeneratorInfo :=
  ⟨"g1", "game1", 0, 3, 4, "0x0", 0, 10, 1000, 0, 0, "0x0", "0x0"⟩

/-- Empty starting world used by the C1 theorem. -/
def world0 : GameWorld := ⟨[], [], 100, 100, 0⟩

/-- Generator of the active match, held by alice (C5 witness). -/
def genA : GeneratorInfo :=
  ⟨"gA", "game1", 1, 5, 6, "alice", 2, 10, 1000, 0, 0, "0x0", "0x0"⟩

/-- Generator of a different match, also held by alice (C5 witness). -/
def genB : GeneratorInfo :=
  ⟨"gB", "other", 0, 1, 1, "alice", 0, 10, 1000, 0, 0, "0x0", "0x0"⟩

/-- Match record used by the C5 witness. -/
def mW : SuiGameService.MatchRecord := ⟨"alice", ["alice", "bob"]⟩

/-- Concrete ledger client used by the C5 witness. -/
def clientW : SuiGameService.SuiClientModel :=
  { matchObject := fun gid =>
      if gid = "game1" then Except.ok (some mW) else Except.ok none
    ownedGenerators := fun addr =>
      if addr = "alice" then Except.ok [genA, genB] else Except.ok []
    ownedResources := fun _ => Except.ok []
    ownedTradeProposals := fun _ => Except.ok [] }

/-- The `SuiGameService` instance state: its `SuiClient` and the
`currentGameId` field. -/
structure SuiService where
  client : SuiGameService.SuiClientModel
  currentGameId : Option String

namespace SuiService

/-- Method `getPlayerResources`: first owned `PlayerResources` object,
`null` when the address owns none; not guarded by any try/catch, so an
RPC failure propagates to the caller. -/
def getPlayerResources (svc : SuiService) (address : String) :
    Except Unit (Option SuiGameService.PlayerResourcesInfo) :=
  match svc.client.ownedResources address with
  | .error e => .error e
  | .ok [] => .ok none
  | .ok (obj :: _) => .ok (some obj)

/-- The `seenProposals` dedup step: push each object whose id was not
seen yet. -/
def addTrades :
    List String → List SuiGameService.TradeProposalInfo →
    List SuiGameService.TradeProposalInfo →
    List String × List SuiGameService.TradeProposalInfo
  | seen, acc, [] => (seen, acc)
  | seen, acc, obj :: objs =>
    if obj.objectId ∈ seen then addTrades seen acc objs
    else addTrades (seen ++ [obj.objectId]) (acc ++ [obj]) objs

/-- The participant loop of `getAllTradeProposals`; unlike the
generator loop, the whole body sits in a single try block whose catch
returns a fresh empty list, so any RPC error discards partial results. -/
def collectTrades (client : SuiGameService.SuiClientModel) :
    List String → List String → List SuiGameService.TradeProposalInfo →
    Except Unit (List SuiGameService.TradeProposalInfo)
  | [], _, acc => .ok acc
  | p :: ps, seen, acc =>
    match client.ownedTradeProposals p with
    | .error e => .error e
    | .ok objs =>
      let sa := addTrades seen acc objs
      collectTrades client ps sa.1 sa.2

/-- Method `getAllTradeProposals`. -/
def getAllTradeProposals (svc : SuiService) :
    List SuiGameService.TradeProposalInfo :=
  match svc.currentGameId with
  | none => []
  | some gid =>
    match svc.client.matchObject gid with
    | .error _ => []
    | .ok none => []
    | .ok (some m) =>
      match collectTrades svc.client m.participants [] [] with
      | .error _ => []
      | .ok proposals => proposals

/-- Method `getTradeProposalsForAgent`. -/
def getTradeProposalsForAgent (svc : SuiService) (agentAddress : String) :
    List SuiGameService.TradeProposalInfo :=
  (getAllTradeProposals svc).filter
    (fun p => p.proposer == agentAddress || p.target == agentAddress)

/-- Method `getGameMatch`. -/
def getGameMatch (svc : SuiService) (gameId : String) :
    Except Unit (Option SuiGameService.GameMatchInfo) :=
  match svc.client.matchObject gameId with
  | .error e => .error e
  | .ok none => .ok none
  | .ok (some m) => .ok (some ⟨gameId, m.creator, m.participants⟩)

/-- Method `getGeneratorsNearPosition`. -/
noncomputable def getGeneratorsNearPosition (svc : SuiService)
    (gameId : String) (position : Position) (range : ℚ) :
    List GeneratorInfo :=
  (SuiGameService.getAllGenerators svc.client gameId).filter
    (fun gen => decide (Real.sqrt ((((gen.x : ℝ)) - (position.x : ℝ)) ^ 2 +
      (((gen.y : ℝ)) - (position.y : ℝ)) ^ 2) ≤ (range : ℝ)))

/-- Fixed keyword vocabulary of the recapture heuristic. -/
def hostileKeywords : List String :=
  ["hostile", "enemy", "unfriendly", "attacked", "stole", "aggressive",
   "threat"]

/-- Method `shouldRecaptureGenerator`. -/
def shouldRecaptureGenerator (generator : GeneratorInfo)
    (agentAddress : String) (agentMemory : String) : Bool :=
  if generator.owner = agentAddress then false
  else if generator.owner = "0x0" then false
  else
    let ownerMention := jsToLower generator.owner
    let memoryLower := jsToLower agentMemory
    hostileKeywords.any (fun keyword =>
      jsIncludes memoryLower keyword &&
      jsIncludes memoryLower (ownerMention.take 8))

end SuiService

/-- Player metadata carried by the persistence layer. -/
structure PlayerMetadata where
  suiAddress : Option String
deriving DecidableEq

/-- The TS `PlayerData` interface (the fields the context reads). -/
structure PlayerData where
  name : Option String
  position : Position
  metadata : Option PlayerMetadata
deriving DecidableEq

/-- The Elasticsearch collaborator as the context service sees it: one
`getAllPlayers()` call that either yields the player list or throws. -/
structure ElasticsearchService where
  players : Except Unit (List PlayerData)

/-- Method `getAllPlayers`. -/
def ElasticsearchService.getAllPlayers (es : ElasticsearchService) :
    Except Unit (List PlayerData) := es.players

/-- JavaScript `x || dflt` on an optional string field. -/
def jsOrElse (v : Option String) (dflt : String) : String :=
  match v with
  | none => dflt
  | some s => if s = "" then dflt else s

/-- JavaScript `Array.prototype.join(sep)`. -/
def joinSep (sep : String) : List String → String
  | [] => ""
  | [s] => s
  | s :: s2 :: rest => s ++ sep ++ joinSep sep (s2 :: rest)

/-- The TS `AgentContext` interface. -/
structure AgentContext where
  selfInfo : String
  nearbyAgents : String
  nearbyItems : String
  nearbyPlayers : String
  nearbyGenerators : String
  resourcesInfo : String
  tradeProposals : String
  worldInfo : String
  fullContext : String

namespace WorldContextServiceExtended

/-- JavaScript `Math.atan2` over exact reals (signed zeros collapse to
0, so `atan2 0 0 = 0` as for JS `atan2(+0, +0)`). -/
noncomputable def atan2 (y x : ℝ) : ℝ :=
  if 0 < x then Real.arctan (y / x)
  else if x < 0 then
    (if 0 ≤ y then Real.arctan (y / x) + Real.pi
     else Real.arctan (y / x) - Real.pi)
  else if 0 < y then Real.pi / 2
  else if y < 0 then -(Real.pi / 2)
  else 0

/-- Method `calculateDistance`. -/
noncomputable def calculateDistance (pos1 pos2 : Position) : ℝ :=
  Real.sqrt (((pos2.x : ℝ) - (pos1.x : ℝ)) ^ 2 +
    ((pos2.y : ℝ) - (pos1.y : ℝ)) ^ 2)

/-- Method `getDirection`: bearing bucketed into eight 45-degree
sectors, with a final fallback return. -/
noncomputable def getDirection (fromPos toPos : Position) : String :=
  let dx : ℝ := (toPos.x : ℝ) - (fromPos.x : ℝ)
  let dy : ℝ := (toPos.y : ℝ) - (fromPos.y : ℝ)
  let angle := atan2 dy dx * (180 / Real.pi)
  if -22.5 ≤ angle ∧ angle < 22.5 then "to the East"
  else if 22.5 ≤ angle ∧ angle < 67.5 then "to the Southeast"
  else if 67.5 ≤ angle ∧ angle < 112.5 then "to the South"
  else if 112.5 ≤ angle ∧ angle < 157.5 then "to the Southwest"
  else if 157.5 ≤ angle ∨ angle < -157.5 then "to the West"
  else if -157.5 ≤ angle ∧ angle < -112.5 then "to the Northwest"
  else if -112.5 ≤ angle ∧ angle < -67.5 then "to the North"
  else if -67.5 ≤ angle ∧ angle < -22.5 then "to the Northeast"
  else "nearby"

/-- Method `getResourceName` of the context service (same switch as the
game service's). -/
def getResourceName (resourceType : ℕ) : String :=
  SuiGameService.getResourceName resourceType

/-- Method `buildSelfInfo`: base status lines, an optional resource
line (a failing resource query is swallowed by an empty catch), and the
closing roleplay reminder. -/
noncomputable def buildSelfInfo (sui : Option SuiService)
    (agent : GameAgent) : String :=
  let parts := ["YOUR CURRENT STATUS:",
    "- Name: " ++ agent.name,
    "- Description: " ++ agent.description,
    "- Current Position: (" ++ toString (round agent.position.x) ++ ", " ++
      toString (round agent.position.y) ++ ")",
    "- Your Sui Wallet Address: " ++ agent.suiAddress]
  let parts2 :=
    match sui with
    | none => parts
    | some svc =>
      match SuiService.getPlayerResources svc agent.suiAddress with
      | .error _ => parts
      | .ok none => parts
      | .ok (some resources) =>
        parts ++ ["- Your Resources: " ++ toString resources.wood ++
          " Wood, " ++ toString resources.stone ++ " Stone, " ++
          toString resources.emerald ++ " Emerald"]
  joinSep "\n" (parts2 ++
    ["- You are currently in the game world. Remember to roleplay as your character."])

/-- Method `buildNearbyAgentsInfo`. -/
noncomputable def buildNearbyAgentsInfo (world : GameWorld)
    (agent : GameAgent) (range : ℚ) : String :=
  let nearbyAgents := (GameWorld.getAgentsInRange world agent.position
    range).filter (fun a => !(a.id == agent.id))
  if nearbyAgents.length = 0 then
    "NEARBY NPCs:\n- None within visible range"
  else
    let agentDescriptions := nearbyAgents.map (fun nearbyAgent =>
      "- " ++ nearbyAgent.name ++ " (" ++ nearbyAgent.suiAddress.take 8 ++
      "...): " ++ nearbyAgent.description ++ " (" ++
      toString (round (calculateDistance agent.position
        nearbyAgent.position)) ++ " units " ++
      getDirection agent.position nearbyAgent.position ++ ")")
    joinSep "\n" ("NEARBY NPCs:" :: agentDescriptions)

/-- Method `buildNearbyItemsInfo`. -/
noncomputable def buildNearbyItemsInfo (world : GameWorld)
    (agent : GameAgent) (range : ℚ) : String :=
  let nearbyItems := GameWorld.getItemsInRange world agent.position range
  if nearbyItems.length = 0 then
    "NEARBY ITEMS:\n- None within visible range"
  else
    let itemDescriptions := nearbyItems.map (fun item =>
      let interactiveTag :=
        if item.interactive = some true then " [Interactive]" else ""
      "- " ++ item.name ++ interactiveTag ++ ": " ++
      jsOrElse item.description "No description" ++ " (" ++
      toString (round (calculateDistance agent.position item.position)) ++
      " units " ++ getDirection agent.position item.position ++ ")")
    joinSep "\n" ("NEARBY ITEMS:" :: itemDescriptions)

/-- Method `buildNearbyPlayersInfo`: absent persistence collaborator or
a thrown `getAllPlayers` yield fixed placeholders; a per-player
resource lookup failure is swallowed (empty inline tag). -/
noncomputable def buildNearbyPlayersInfo (es : Option ElasticsearchService)
    (sui : Option SuiService) (agent : GameAgent) (range : ℚ) : String :=
  match es with
  | none => "NEARBY PLAYERS:\n- Player tracking not available"
  | some esSvc =>
    match ElasticsearchService.getAllPlayers esSvc with
    | .error _ => "NEARBY PLAYERS:\n- Error loading player information"
    | .ok allPlayers =>
      let nearbyPlayers := allPlayers.filter (fun player =>
        decide (calculateDistance agent.position player.position ≤
          (range : ℝ)))
      if nearbyPlayers.length = 0 then
        "NEARBY PLAYERS:\n- No players within visible range"
      else
        let playerDescriptions := nearbyPlayers.map (fun player =>
          let resourceInfo :=
            match sui, player.metadata with
            | some svc, some md =>
              match md.suiAddress with
              | some addr =>
                match SuiService.getPlayerResources svc addr with
                | .ok (some resources) =>
                  " [Resources: " ++ toString resources.wood ++ "W, " ++
                  toString resources.stone ++ "S, " ++
                  toString resources.emerald ++ "E]"
                | _ => ""
              | none => ""
            | _, _ => ""
          "- " ++ jsOrElse player.name "Adventurer" ++ resourceInfo ++
          " (" ++ toString (round (calculateDistance agent.position
            player.position)) ++ " units " ++
          getDirection agent.position player.position ++ ")")
        joinSep "\n" ("NEARBY PLAYERS:" :: playerDescriptions)

/-- Method `buildNearbyGeneratorsInfo` (the generator queries catch
internally and cannot throw, so the catch branch of the source is
unreachable in the model). -/
noncomputable def buildNearbyGeneratorsInfo (sui : Option SuiService)
    (agent : GameAgent) (range : ℚ) : String :=
  match sui with
  | none => "NEARBY GENERATORS:\n- Generator tracking not available"
  | some svc =>
    match svc.currentGameId with
    | none => "NEARBY GENERATORS:\n- No active game"
    | some gameId =>
      let generators := SuiService.getGeneratorsNearPosition svc gameId
        agent.position range
      if generators.length = 0 then
        "NEARBY GENERATORS:\n- None within visible range"
      else
        let generatorDescriptions := generators.map (fun gen =>
          let resourceName := getResourceName gen.resourceType
          let ownerInfo :=
            if gen.owner = "0x0" then "[UNCLAIMED - You can claim this!]"
            else if gen.owner = agent.suiAddress then "[OWNED BY YOU]"
            else "[Owned by " ++ gen.owner.take 8 ++ "...]"
          let statusInfo :=
            if gen.owner ≠ "0x0" then
              " Level " ++ toString gen.level ++ ", Rate: " ++
              toString gen.generationRate ++ "/min, Unclaimed: " ++
              toString gen.unclaimed ++ "/" ++ toString gen.maxCap
            else ""
          "- " ++ resourceName ++ " Generator " ++ ownerInfo ++
          statusInfo ++ " (" ++ toString (round (calculateDistance
            agent.position ⟨gen.x, gen.y⟩)) ++ " units " ++
          getDirection agent.position ⟨gen.x, gen.y⟩ ++ ")")
        joinSep "\n" (["NEARBY GENERATORS:"] ++ generatorDescriptions ++
          ["\nACTIONS AVAILABLE:",
           "- Claim unclaimed generators using /claim_generator",
           "- Claim resources from your generators using /claim_resources",
           "- Recapture enemy generators using /recapture_generator"])

/-- Method `buildResourcesInfo`. -/
noncomputable def buildResourcesInfo (sui : Option SuiService)
    (agent : GameAgent) : String :=
  match sui with
  | none => "YOUR RESOURCES:\n- Resource tracking not available"
  | some svc =>
    match SuiService.getPlayerResources svc agent.suiAddress with
    | .error _ => "YOUR RESOURCES:\n- Error loading resources"
    | .ok none => "YOUR RESOURCES:\n- Not yet initialized (join a game first)"
    | .ok (some resources) =>
      joinSep "\n" ["YOUR RESOURCES:",
        "- Wood: " ++ toString resources.wood,
        "- Stone: " ++ toString resources.stone,
        "- Emerald: " ++ toString resources.emerald,
        "- Resource Object ID: " ++ resources.objectId]

/-- Method `buildTradeProposalsInfo` (`getTradeProposalsForAgent`
catches internally and cannot throw in the model). -/
noncomputable def buildTradeProposalsInfo (sui : Option SuiService)
    (agent : GameAgent) : String :=
  match sui with
  | none => "TRADE PROPOSALS:\n- Trading not available"
  | some svc =>
    let proposals := SuiService.getTradeProposalsForAgent svc
      agent.suiAddress
    if proposals.length = 0 then
      "TRADE PROPOSALS:\n- No pending trade proposals"
    else
      let proposalDescriptions := proposals.map (fun proposal =>
        let isProposer := proposal.proposer == agent.suiAddress
        let otherParty :=
          if isProposer then proposal.target else proposal.proposer
        let role := if isProposer then "YOU PROPOSED" else "PROPOSED TO YOU"
        let offering := toString proposal.woodOffered ++ "W, " ++
          toString proposal.stoneOffered ++ "S, " ++
          toString proposal.emeraldOffered ++ "E"
        let requesting := toString proposal.woodRequested ++ "W, " ++
          toString proposal.stoneRequested ++ "S, " ++
          toString proposal.emeraldRequested ++ "E"
        "- [" ++ role ++ "] Trade with " ++ otherParty.take 8 ++
        "...: Offering " ++ offering ++ " for " ++ requesting ++
        " (ID: " ++ proposal.objectId.take 8 ++ "...)")
      joinSep "\n" (["TRADE PROPOSALS:"] ++ proposalDescriptions ++
        ["\nACTIONS AVAILABLE:",
         "- Propose trades using /propose_trade",
         "- Accept incoming trades using /accept_trade",
         "- Cancel your proposals using /cancel_trade"])

/-- Method `buildWorldInfo`: fixed stats, then generator and
participant counts when a game is active (a failing `getGameMatch` is
caught after the generator line was already pushed). -/
noncomputable def buildWorldInfo (world : GameWorld)
    (sui : Option SuiService) : String :=
  let parts := ["WORLD INFORMATION:",
    "- World Size: " ++ toString world.worldWidth ++ "x" ++
      toString world.worldHeight ++ " units",
    "- Total NPCs in world: " ++
      toString (GameWorld.getAllAgents world).length,
    "- Total items in world: " ++
      toString (GameWorld.getAllItems world).length]
  let parts2 :=
    match sui with
    | none => parts
    | some svc =>
      match svc.currentGameId with
      | none => parts
      | some gameId =>
        let generators := SuiGameService.getAllGenerators svc.client gameId
        let parts3 := parts ++
          ["- Total generators in game: " ++ toString generators.length]
        match SuiService.getGameMatch svc gameId with
        | .ok (some gameInfo) => parts3 ++
            ["- Game participants: " ++
              toString gameInfo.participants.length ++ " players"]
        | _ => parts3
  joinSep "\n" (parts2 ++
    ["- Remember: You can move around, interact with items, manage generators, trade resources, and converse with players and other NPCs"])

/-- Method `generateAgentContext`: builds every section, then joins the
nonempty ones in fixed order with blank lines. -/
noncomputable def generateAgentContext (world : GameWorld)
    (es : Option ElasticsearchService) (sui : Option SuiService)
    (agent : GameAgent) (contextRange : ℚ) : AgentContext :=
  let selfInfo := buildSelfInfo sui agent
  let nearbyAgents := buildNearbyAgentsInfo world agent contextRange
  let nearbyItems := buildNearbyItemsInfo world agent contextRange
  let nearbyPlayers := buildNearbyPlayersInfo es sui agent contextRange
  let nearbyGenerators := buildNearbyGeneratorsInfo sui agent contextRange
  let resourcesInfo := buildResourcesInfo sui agent
  let tradeProposals := buildTradeProposalsInfo sui agent
  let worldInfo := buildWorldInfo world sui
  let fullContext := joinSep "\n\n"
    ((["=== CURRENT CONTEXT ===", selfInfo, resourcesInfo, nearbyAgents,
       nearbyPlayers, nearbyGenerators, nearbyItems, tradeProposals,
       worldInfo, "==================="]).filter
      (fun s => decide (s.length > 0)))
  { selfInfo := selfInfo
    nearbyAgents := nearbyAgents
    nearbyItems := nearbyItems
    nearbyPlayers := nearbyPlayers
    nearbyGenerators := nearbyGenerators
    resourcesInfo := resourcesInfo
    tradeProposals := tradeProposals
    worldInfo := worldInfo
    fullContext := fullContext }

end WorldContextServiceExtended

/-- Generator owned by a third party, used by the C3 witness. -/
def genHostile : GeneratorInfo :=
  ⟨"gH", "game1", 0, 1, 1, "0xBBBBcccc1234", 1, 10, 1000, 0, 0,
   "0x0", "0x0"⟩

namespace resource_game

theorem chkAdd_eq_some {a b c : ℕ} :
    chkAdd a b = some c ↔ a + b < u64Limit ∧ c = a + b := by
  unfold chkAdd
  split <;> simp_all <;> omega

theorem chkSub_eq_some {a b c : ℕ} :
    chkSub a b = some c ↔ b ≤ a ∧ c = a - b := by
  unfold chkSub
  split <;> simp_all <;> omega

theorem chkMul_eq_some {a b c : ℕ} :
    chkMul a b = some c ↔ a * b < u64Limit ∧ c = a * b := by
  unfold chkMul
  split <;> simp_all <;> omega

theorem optBind_some {α β : Type} (a : α) (f : α → Option β) :
    (some a).bind f = f a := rfl

/-- No code path of the module ever stores a nonzero `unclaimed` amount:
creation writes 0, a settled claim writes 0 (or leaves a 0 untouched),
and a recapture writes 0. -/
theorem reachable_unclaimed_zero {g : Generator} (h : ReachableGen g) :
    g.unclaimed = 0 := by
  induction h with
  | created game sender rt xs ys now gens g hc hm =>
    unfold create_generators at hc
    split at hc
    · split at hc
      · simp only [Option.some.injEq] at hc
        subst hc
        simp only [List.mem_map] at hm
        obtain ⟨p, _, rfl⟩ := hm
        rfl
      · exact absurd hc (by simp)
    · exact absurd hc (by simp)
  | claimed game g sender now g' h hr ih =>
    unfold claim_generator at h
    split at h
    · split at h
      · simp only [Option.some.injEq] at h
        subst h
        exact ih
      · exact absurd h (by simp)
    · exact absurd h (by simp)
  | settled g pr sender now g' pr' h hr ih =>
    unfold claim_resources at h
    simp only [Option.ite_none_right_eq_some, Option.bind_eq_some] at h
    obtain ⟨ho, hpo, tc, hs, h⟩ := h
    by_cases htc : tc > 0
    · rw [if_pos htc] at h
      simp only [Option.bind_eq_some] at h
      obtain ⟨pr2, hadd, h⟩ := h
      simp only [Option.some.injEq, Prod.mk.injEq] at h
      rw [← h.1]
    · rw [if_neg htc] at h
      simp only [Option.some.injEq, Prod.mk.injEq] at h
      rw [← h.1]
      exact ih
  | recaptured game g ar sender now g' ar' h hr ih =>
    unfold recapture_generator at h
    simp only [Option.ite_none_right_eq_some, Option.bind_eq_some] at h
    obtain ⟨hmem, hno, hns, st, hs, ar2, ha, h⟩ := h
    simp only [Option.some.injEq, Prod.mk.injEq] at h
    rw [← h.1]

/-- C6: for every Generator state reachable via `create_generators`,
`claim_generator`, `claim_resources` and `recapture_generator`,
`unclaimed ≤ max_cap` holds after any settling call, and an unclaimed
generator (`owner = 0x0`) carries no accrued amount. -/
theorem C6_generator_invariant (g : Generator) (h : ReachableGen g) :
    g.unclaimed ≤ g.max_cap ∧ (g.owner = zeroAddress → g.unclaimed = 0) :=
  ⟨by rw [reachable_unclaimed_zero h]; exact Nat.zero_le _,
   fun _ => reachable_unclaimed_zero h⟩

theorem C6_witness :
    genW.unclaimed ≤ genW.max_cap ∧
      (genW.owner = zeroAddress → genW.unclaimed = 0) :=
  C6_generator_invariant genW
    (ReachableGen.created gameW "alice" 0 [3] [4] 77 [genW] genW
      (by decide) (by decide))

/-- C7 (amended): under the enumerated preconditions and the additional
requirement that no intermediate `u64` computation overflows,
`accept_trade` performs the full two-sided transfer in one step; every
successful call conserves the two-party sum of each resource and keeps
both owners; and a call violating any enumerated precondition aborts
with no state change. -/
theorem C7_accept_trade_atomic (P : TradeProposal) (pr ar : PlayerResources)
    (sender : String) :
    (sender = P.target → ar.owner = sender → pr.owner = P.proposer →
     P.wood_offered ≤ pr.wood → P.stone_offered ≤ pr.stone →
     P.emerald_offered ≤ pr.emerald →
     P.wood_requested ≤ ar.wood → P.stone_requested ≤ ar.stone →
     P.emerald_requested ≤ ar.emerald →
     pr.wood - P.wood_offered + P.wood_requested < u64Limit →
     pr.stone - P.stone_offered + P.stone_requested < u64Limit →
     pr.emerald - P.emerald_offered + P.emerald_requested < u64Limit →
     ar.wood + P.wood_offered < u64Limit →
     ar.stone + P.stone_offered < u64Limit →
     ar.emerald + P.emerald_offered < u64Limit →
     accept_trade P pr ar sender =
       some ({ pr with
                wood := pr.wood - P.wood_offered + P.wood_requested
                stone := pr.stone - P.stone_offered + P.stone_requested
                emerald := pr.emerald - P.emerald_offered + P.emerald_requested },
             { ar with
                wood := ar.wood + P.wood_offered - P.wood_requested
                stone := ar.stone + P.stone_offered - P.stone_requested
                emerald := ar.emerald + P.emerald_offered - P.emerald_requested })) ∧
    (∀ pr2 ar2, accept_trade P pr ar sender = some (pr2, ar2) →
       pr2.wood + ar2.wood = pr.wood + ar.wood ∧
       pr2.stone + ar2.stone = pr.stone + ar.stone ∧
       pr2.emerald + ar2.emerald = pr.emerald + ar.emerald ∧
       pr2.owner = pr.owner ∧ ar2.owner = ar.owner) ∧
    ((sender ≠ P.target ∨ ar.owner ≠ sender ∨ pr.owner ≠ P.proposer ∨
      pr.wood < P.wood_offered ∨ pr.stone < P.stone_offered ∨
      pr.emerald < P.emerald_offered ∨ ar.wood < P.wood_requested ∨
      ar.stone < P.stone_requested ∨ ar.emerald < P.emerald_requested) →
     accept_trade P pr ar sender = none) := by
  refine ⟨?_, ?_, ?_⟩
  · intro h1 h2 h3 h4 h5 h6 h7 h8 h9 h10 h11 h12 h13 h14 h15
    have e1 : chkSub pr.wood P.wood_offered =
        some (pr.wood - P.wood_offered) := by
      unfold chkSub; rw [if_pos h4]
    have e2 : chkAdd (pr.wood - P.wood_offered) P.wood_requested =
        some (pr.wood - P.wood_offered + P.wood_requested) := by
      unfold chkAdd; rw [if_pos h10]
    have e3 : chkSub pr.stone P.stone_offered =
        some (pr.stone - P.stone_offered) := by
      unfold chkSub; rw [if_pos h5]
    have e4 : chkAdd (pr.stone - P.stone_offered) P.stone_requested =
        some (pr.stone - P.stone_offered + P.stone_requested) := by
      unfold chkAdd; rw [if_pos h11]
    have e5 : chkSub pr.emerald P.emerald_offered =
        some (pr.emerald - P.emerald_offered) := by
      unfold chkSub; rw [if_pos h6]
    have e6 : chkAdd (pr.emerald - P.emerald_offered) P.emerald_requested =
        some (pr.emerald - P.emerald_offered + P.emerald_requested) := by
      unfold chkAdd; rw [if_pos h12]
    have e7 : chkAdd ar.wood P.wood_offered =
        some (ar.wood + P.wood_offered) := by
      unfold chkAdd; rw [if_pos h13]
    have e8 : chkSub (ar.wood + P.wood_offered) P.wood_requested =
        some (ar.wood + P.wood_offered - P.wood_requested) := by
      unfold chkSub; rw [if_pos (Nat.le_trans h7 (Nat.le_add_right _ _))]
    have e9 : chkAdd ar.stone P.stone_offered =
        some (ar.stone + P.stone_offered) := by
      unfold chkAdd; rw [if_pos h14]
    have e10 : chkSub (ar.stone + P.stone_offered) P.stone_requested =
        some (ar.stone + P.stone_offered - P.stone_requested) := by
      unfold chkSub; rw [if_pos (Nat.le_trans h8 (Nat.le_add_right _ _))]
    have e11 : chkAdd ar.emerald P.emerald_offered =
        some (ar.emerald + P.emerald_offered) := by
      unfold chkAdd; rw [if_pos h15]
    have e12 : chkSub (ar.emerald + P.emerald_offered) P.emerald_requested =
        some (ar.emerald + P.emerald_offered - P.emerald_requested) := by
      unfold chkSub; rw [if_pos (Nat.le_trans h9 (Nat.le_add_right _ _))]
    unfold accept_trade
    rw [if_pos h1, if_pos h2, if_pos h3, if_pos h4, if_pos h5, if_pos h6,
      if_pos h7, if_pos h8, if_pos h9]
    simp only [e1, e2, e3, e4, e5, e6, e7, e8, e9, e10, e11, e12,
      optBind_some]
  · intro pr2 ar2 h
    unfold accept_trade at h
    simp only [Option.ite_none_right_eq_some, Option.bind_eq_some,
      Option.some.injEq, Prod.mk.injEq, chkAdd_eq_some, chkSub_eq_some] at h
    obtain ⟨h1, h2, h3, h4, h5, h6, h7, h8, h9,
      pw1, ⟨hs1, rfl⟩, pw, ⟨hs2, rfl⟩, ps1, ⟨hs3, rfl⟩, ps, ⟨hs4, rfl⟩,
      pe1, ⟨hs5, rfl⟩, pe, ⟨hs6, rfl⟩, aw1, ⟨hs7, rfl⟩, aw, ⟨hs8, rfl⟩,
      as1, ⟨hs9, rfl⟩, asv, ⟨hs10, rfl⟩, ae1, ⟨hs11, rfl⟩, ae, ⟨hs12, rfl⟩,
      hpr, har⟩ := h
    subst hpr
    subst har
    refine ⟨?_, ?_, ?_, ?_, ?_⟩ <;> (try dsimp only) <;> first | rfl | omega
  · intro hbad
    cases hv : accept_trade P pr ar sender with
    | none => rfl
    | some v =>
      exfalso
      obtain ⟨pr2, ar2⟩ := v
      unfold accept_trade at hv
      simp only [Option.ite_none_right_eq_some, Option.bind_eq_some,
        Option.some.injEq, Prod.mk.injEq, chkAdd_eq_some,
        chkSub_eq_some] at hv
      obtain ⟨h1, h2, h3, h4, h5, h6, h7, h8, h9, hrest⟩ := hv
      rcases hbad with h | h | h | h | h | h | h | h | h <;>
        first | exact h h1 | exact h h2 | exact h h3 | omega

theorem C7_witness :
    accept_trade trW prW arW "bob" =
      some ({ prW with
               wood := prW.wood - trW.wood_offered + trW.wood_requested
               stone := prW.stone - trW.stone_offered + trW.stone_requested
               emerald := prW.emerald - trW.emerald_offered + trW.emerald_requested },
            { arW with
               wood := arW.wood + trW.wood_offered - trW.wood_requested
               stone := arW.stone + trW.stone_offered - trW.stone_requested
               emerald := arW.emerald + trW.emerald_offered - trW.emerald_requested }) :=
  (C7_accept_trade_atomic trW prW arW "bob").1 rfl rfl rfl (by decide)
    (by decide) (by decide) (by decide) (by decide) (by decide) (by decide)
    (by decide) (by decide) (by decide) (by decide) (by decide)

/-- C7 counterexample: every precondition enumerated by the claim holds,
yet `accept_trade` aborts (the proposer's updated wood balance,
`(2^64-1) - 0 + (2^64-1)`, overflows `u64`), so no resources move. -/
theorem C7_counterexample :
    ("bob" = trBig.target ∧ arBig.owner = "bob" ∧
     prBig.owner = trBig.proposer ∧
     trBig.wood_offered ≤ prBig.wood ∧ trBig.stone_offered ≤ prBig.stone ∧
     trBig.emerald_offered ≤ prBig.emerald ∧
     trBig.wood_requested ≤ arBig.wood ∧ trBig.stone_requested ≤ arBig.stone ∧
     trBig.emerald_requested ≤ arBig.emerald) ∧
    accept_trade trBig prBig arBig "bob" = none := by
  constructor
  · refine ⟨rfl, rfl, rfl, ?_, ?_, ?_, ?_, ?_, ?_⟩ <;> decide
  · decide

end resource_game

/-- C9 counterexample: `addAgent` stores a caller-supplied position
verbatim, so supplying `(150, 50)` to the 100 by 100 world stores a
position outside `[0, worldWidth] × [0, worldHeight]`. -/
theorem C9_counterexample :
    ¬ GameWorld.inBounds worldW
        ((GameWorld.addAgent worldW "l" "n" "d" "a" "p" "s"
          (some ⟨150, 50⟩) 0 0 0).2.position) := by
  intro h
  obtain ⟨-, h2, -, -⟩ := h
  norm_num [GameWorld.addAgent, worldW] at h2

/-- C9 (amended): the randomly generated position of `addAgent` and the
clamped position stored by `updateAgentPosition` always lie within
`[0, worldWidth] × [0, worldHeight]` (for nonnegative bounds and random
draws in `[0,1)`), but a caller-supplied position is stored unclamped,
exactly as given. -/
theorem C9_position_bounds (w : GameWorld) :
    (∀ lid n d sa pk sk r1 r2 now, 0 ≤ r1 → r1 < 1 → 0 ≤ r2 → r2 < 1 →
      0 ≤ w.worldWidth → 0 ≤ w.worldHeight →
      GameWorld.inBounds w
        ((GameWorld.addAgent w lid n d sa pk sk none r1 r2 now).2.position)) ∧
    (∀ agentId pos w2 a2, 0 ≤ w.worldWidth → 0 ≤ w.worldHeight →
      GameWorld.updateAgentPosition w agentId pos = (w2, some a2) →
      GameWorld.inBounds w a2.position) ∧
    (∀ lid n d sa pk sk p r1 r2 now,
      (GameWorld.addAgent w lid n d sa pk sk (some p) r1 r2 now).2.position
        = p) := by
  refine ⟨?_, ?_, ?_⟩
  · intro lid n d sa pk sk r1 r2 now hr1 hr1lt hr2 hr2lt hW hH
    refine ⟨?_, ?_, ?_, ?_⟩
    · exact Int.cast_nonneg.mpr (Int.floor_nonneg.mpr (mul_nonneg hr1 hW))
    · calc ((⌊r1 * w.worldWidth⌋ : ℤ) : ℚ) ≤ r1 * w.worldWidth :=
            Int.floor_le _
        _ ≤ 1 * w.worldWidth := mul_le_mul_of_nonneg_right hr1lt.le hW
        _ = w.worldWidth := one_mul _
    · exact Int.cast_nonneg.mpr (Int.floor_nonneg.mpr (mul_nonneg hr2 hH))
    · calc ((⌊r2 * w.worldHeight⌋ : ℤ) : ℚ) ≤ r2 * w.worldHeight :=
            Int.floor_le _
        _ ≤ 1 * w.worldHeight := mul_le_mul_of_nonneg_right hr2lt.le hH
        _ = w.worldHeight := one_mul _
  · intro agentId pos w2 a2 hW hH h
    unfold GameWorld.updateAgentPosition at h
    cases hf : w.agents.find? (fun a => a.id == agentId) with
    | none => rw [hf] at h; simp at h
    | some agent =>
      rw [hf] at h
      simp only [Prod.mk.injEq, Option.some.injEq] at h
      rw [← h.2]
      exact ⟨le_max_left _ _, max_le hW (min_le_right _ _),
        le_max_left _ _, max_le hH (min_le_right _ _)⟩
  · intro lid n d sa pk sk p r1 r2 now
    rfl

theorem C9_witness :
    GameWorld.inBounds worldW
      ((GameWorld.addAgent worldW "l" "n" "d" "a" "p" "s"
        none (1/2) (1/2) 0).2.position) :=
  (C9_position_bounds worldW).1 "l" "n" "d" "a" "p" "s" (1/2) (1/2) 0
    (by norm_num) (by norm_num) (by norm_num) (by norm_num)
    (by norm_num [worldW]) (by norm_num [worldW])

/-- C10: a world item whose `collectedBy` holds a truthy (nonempty)
value is excluded from `getAllItems` and therefore from every
`getItemsInRange` query; and the projection `syncGeneratorsToWorld`
builds for a claimed generator carries exactly such a truthy
`collectedBy` (the owner address). -/
theorem C10_collected_invisible (w : GameWorld) (it : WorldItem)
    (hset : strTruthy it.collectedBy = true) :
    it ∉ GameWorld.getAllItems w ∧
    (∀ pos range, it ∉ GameWorld.getItemsInRange w pos range) ∧
    (∀ gen : GeneratorInfo, gen.owner ≠ "0x0" → gen.owner ≠ "" →
      strTruthy (SuiGameService.generatorProjection gen).collectedBy
        = true) := by
  refine ⟨?_, ?_, ?_⟩
  · intro hmem
    rw [GameWorld.getAllItems, List.mem_filter] at hmem
    rw [hset] at hmem
    simp at hmem
  · intro pos range hmem
    rw [GameWorld.getItemsInRange, List.mem_filter] at hmem
    have hmem2 := hmem.1
    rw [GameWorld.getAllItems, List.mem_filter] at hmem2
    rw [hset] at hmem2
    simp at hmem2
  · intro gen h0 hempty
    simp [SuiGameService.generatorProjection, strTruthy, h0, hempty]

theorem C10_witness :
    itemC ∉ GameWorld.getAllItems worldC ∧
    itemC ∉ GameWorld.getItemsInRange worldC ⟨0, 0⟩ 5 ∧
    strTruthy
      (SuiGameService.generatorProjection genClaimed).collectedBy = true :=
  ⟨(C10_collected_invisible worldC itemC (by decide)).1,
   (C10_collected_invisible worldC itemC (by decide)).2.1 ⟨0, 0⟩ 5,
   (C10_collected_invisible worldC itemC (by decide)).2.2 genClaimed
     (by decide) (by decide)⟩

/-- C1 fails on the code: `addItem` always assigns a fresh uuid id, so
the `gen_` + objectId lookup of the next pass never finds the previous
projection; with an unchanged one-generator ledger, the second
reconciliation pass appends a second, differently-keyed duplicate
instead of leaving the single projection in place, and no projection is
ever keyed `gen_` + objectId. -/
theorem C1_sync_duplicates :
    (SuiGameService.syncGeneratorsToWorld (some "game1") [gen1]
        world0).items.length = 1 ∧
    (SuiGameService.syncGeneratorsToWorld (some "game1") [gen1]
        (SuiGameService.syncGeneratorsToWorld (some "game1") [gen1]
          world0)).items.length = 2 ∧
    (∀ it ∈ (SuiGameService.syncGeneratorsToWorld (some "game1") [gen1]
        (SuiGameService.syncGeneratorsToWorld (some "game1") [gen1]
          world0)).items,
      it.id ≠ "gen_" ++ gen1.objectId) := by
  decide

/-- Membership in the participant fold of `getAllGenerators`, in the
error-free case. -/
theorem mem_collectGenerators (client : SuiGameService.SuiClientModel)
    (gameId : String) (g : GeneratorInfo) :
    ∀ (ps : List String) (acc : List GeneratorInfo),
      (∀ p ∈ ps, ∃ l, client.ownedGenerators p = Except.ok l) →
      (g ∈ SuiGameService.collectGenerators client gameId ps acc ↔
        g ∈ acc ∨ ∃ p ∈ ps,
          g ∈ SuiGameService.exceptList (client.ownedGenerators p) ∧
            g.gameId = gameId) := by
  intro ps
  induction ps with
  | nil =>
    intro acc h
    simp [SuiGameService.collectGenerators]
  | cons p ps ih =>
    intro acc h
    obtain ⟨l, hl⟩ := h p (by simp)
    rw [SuiGameService.collectGenerators, hl]
    rw [ih _ (fun q hq => h q (by simp [hq]))]
    simp [List.mem_append, List.mem_filter, hl, SuiGameService.exceptList,
      beq_iff_eq]
    tauto

/-- Anything the participant fold returns comes from some enumerated
participant's owned objects with a matching game id (error or not). -/
theorem collectGenerators_mem_sub (client : SuiGameService.SuiClientModel)
    (gameId : String) (g : GeneratorInfo) :
    ∀ (ps : List String) (acc : List GeneratorInfo),
      g ∈ SuiGameService.collectGenerators client gameId ps acc →
      g ∈ acc ∨ ∃ p ∈ ps,
        g ∈ SuiGameService.exceptList (client.ownedGenerators p) ∧
          g.gameId = gameId := by
  intro ps
  induction ps with
  | nil =>
    intro acc h
    left
    simpa [SuiGameService.collectGenerators] using h
  | cons p ps ih =>
    intro acc h
    rw [SuiGameService.collectGenerators] at h
    cases hq : client.ownedGenerators p with
    | error e =>
      rw [hq] at h
      exact Or.inl h
    | ok objs =>
      rw [hq] at h
      rcases ih _ h with h2 | ⟨q, hq2, hg, hid⟩
      · rcases List.mem_append.mp h2 with h3 | h3
        · exact Or.inl h3
        · rw [List.mem_filter] at h3
          refine Or.inr ⟨p, by simp, ?_, ?_⟩
          · rw [hq]; exact h3.1
          · exact beq_iff_eq.mp h3.2
      · exact Or.inr ⟨q, by simp [hq2], hg, hid⟩

/-- C5: with the match object found, `getAllGenerators` returns exactly
the generators obtained by enumerating the declared participants'
owned Generator objects and keeping those whose `game_id` equals the
requested match (when no query errors); and a generator held by no
declared participant — a shared object, or any holder outside the
list — is never returned. -/
theorem C5_getAllGenerators_enumeration
    (client : SuiGameService.SuiClientModel) (gameId : String)
    (m : SuiGameService.MatchRecord) (g : GeneratorInfo)
    (h1 : client.matchObject gameId = Except.ok (some m)) :
    ((∀ p ∈ m.participants, ∃ l, client.ownedGenerators p = Except.ok l) →
      (g ∈ SuiGameService.getAllGenerators client gameId ↔
        ∃ p ∈ m.participants,
          g ∈ SuiGameService.exceptList (client.ownedGenerators p) ∧
            g.gameId = gameId)) ∧
    ((∀ p ∈ m.participants,
        g ∉ SuiGameService.exceptList (client.ownedGenerators p)) →
      g ∉ SuiGameService.getAllGenerators client gameId) := by
  constructor
  · intro hall
    rw [SuiGameService.getAllGenerators, h1]
    rw [mem_collectGenerators client gameId g m.participants [] hall]
    simp
  · intro hnone hmem
    rw [SuiGameService.getAllGenerators, h1] at hmem
    rcases collectGenerators_mem_sub client gameId g m.participants [] hmem
      with h | ⟨p, hp, hg, _⟩
    · simp at h
    · exact hnone p hp hg

theorem C5_witness :
    genA ∈ SuiGameService.getAllGenerators clientW "game1" :=
  ((C5_getAllGenerators_enumeration clientW "game1" mW genA rfl).1
    (by
      intro p hp
      by_cases h : p = "alice"
      · exact ⟨[genA, genB], by simp [clientW, h]⟩
      · exact ⟨[], by simp [clientW, h]⟩)).mpr
    ⟨"alice", by decide, by decide, rfl⟩

/-- C3: the recapture heuristic returns false when the actor already
owns the generator or the generator is unclaimed; otherwise it returns
true exactly when the lower-cased memory text contains at least one
hostility keyword and also contains the first 8 characters of the
lower-cased owner address (a conjunction — one of the two alone gives
false). -/
theorem C3_shouldRecapture_characterisation (g : GeneratorInfo)
    (a m : String) :
    (g.owner = a → SuiService.shouldRecaptureGenerator g a m = false) ∧
    (g.owner = "0x0" → SuiService.shouldRecaptureGenerator g a m = false) ∧
    (g.owner ≠ a → g.owner ≠ "0x0" →
      (SuiService.shouldRecaptureGenerator g a m = true ↔
        (∃ k ∈ SuiService.hostileKeywords,
          jsIncludes (jsToLower m) k = true) ∧
        jsIncludes (jsToLower m) ((jsToLower g.owner).take 8) = true)) := by
  refine ⟨?_, ?_, ?_⟩
  · intro h
    simp [SuiService.shouldRecaptureGenerator, h]
  · intro h
    by_cases h1 : g.owner = a
    · simp [SuiService.shouldRecaptureGenerator, h1]
    · simp [SuiService.shouldRecaptureGenerator, h1, h]
  · intro h1 h2
    rw [SuiService.shouldRecaptureGenerator, if_neg h1, if_neg h2]
    simp only [List.any_eq_true, Bool.and_eq_true]
    constructor
    · rintro ⟨k, hk, hi, ho⟩
      exact ⟨⟨k, hk, hi⟩, ho⟩
    · rintro ⟨⟨k, hk, hi⟩, ho⟩
      exact ⟨k, hk, hi, ho⟩

theorem C3_witness :
    genHostile.owner ≠ "0xaaaa" ∧ genHostile.owner ≠ "0x0" ∧
    SuiService.shouldRecaptureGenerator genHostile "0xaaaa"
      "I was attacked by 0xbbbbcccc yesterday" = true :=
  ⟨by decide, by decide,
   ((C3_shouldRecapture_characterisation genHostile "0xaaaa"
      "I was attacked by 0xbbbbcccc yesterday").2.2 (by decide)
      (by decide)).mpr
    ⟨⟨"attacked", by decide, by decide⟩, by decide⟩⟩

/-- Shared evaluation of `getDirection` on a pair of equal positions:
`dx = dy = 0`, `atan2 0 0 = 0`, and the zero angle satisfies the first
(East) sector test. -/
theorem getDirection_self_east (p : Position) :
    WorldContextServiceExtended.getDirection p p = "to the East" := by
  unfold WorldContextServiceExtended.getDirection
  have ha : WorldContextServiceExtended.atan2 ((p.y : ℝ) - (p.y : ℝ))
      ((p.x : ℝ) - (p.x : ℝ)) = 0 := by
    unfold WorldContextServiceExtended.atan2
    norm_num
  simp only [ha, zero_mul]
  norm_num

/-- C2 (amended): for equal positions `dx = dy = 0`, so the bearing is
`atan2(0, 0) · 180/π = 0`, which satisfies the first sector test: the
function returns "to the East" (and, being total, never throws); the
final "nearby" fallback is unreachable for equal positions. -/
theorem C2_equal_positions_east (p1 p2 : Position) (h : p1 = p2) :
    WorldContextServiceExtended.getDirection p1 p2 = "to the East" := by
  subst h
  exact getDirection_self_east p1

/-- C2 counterexample: at the equal-position edge case the function
returns a compass label, not the fallback "nearby" the claim demands. -/
theorem C2_counterexample :
    WorldContextServiceExtended.getDirection ⟨0, 0⟩ ⟨0, 0⟩ ≠ "nearby" := by
  rw [getDirection_self_east ⟨0, 0⟩]
  decide

theorem C2_witness :
    WorldContextServiceExtended.getDirection ⟨3, 7⟩ ⟨3, 7⟩ = "to the East" :=
  C2_equal_positions_east ⟨3, 7⟩ ⟨3, 7⟩ rfl

theorem joinSep_cons_length (sep a : String) (l : List String) :
    a.length ≤ (joinSep sep (a :: l)).length := by
  cases l with
  | nil => simp [joinSep]
  | cons b m =>
    simp [joinSep, String.length_append]
    omega

theorem buildSelfInfo_pos (sui : Option SuiService) (agent : GameAgent) :
    0 < (WorldContextServiceExtended.buildSelfInfo sui agent).length := by
  simp only [WorldContextServiceExtended.buildSelfInfo]
  repeat' split
  all_goals
    exact lt_of_lt_of_le (by decide) (joinSep_cons_length _ _ _)

theorem buildNearbyAgentsInfo_pos (world : GameWorld) (agent : GameAgent)
    (range : ℚ) :
    0 < (WorldContextServiceExtended.buildNearbyAgentsInfo world agent
      range).length := by
  simp only [WorldContextServiceExtended.buildNearbyAgentsInfo]
  repeat' split
  all_goals first
    | decide
    | exact lt_of_lt_of_le (by decide) (joinSep_cons_length _ _ _)

theorem buildNearbyItemsInfo_pos (world : GameWorld) (agent : GameAgent)
    (range : ℚ) :
    0 < (WorldContextServiceExtended.buildNearbyItemsInfo world agent
      range).length := by
  simp only [WorldContextServiceExtended.buildNearbyItemsInfo]
  repeat' split
  all_goals first
    | decide
    | exact lt_of_lt_of_le (by decide) (joinSep_cons_length _ _ _)

theorem buildNearbyPlayersInfo_pos (es : Option ElasticsearchService)
    (sui : Option SuiService) (agent : GameAgent) (range : ℚ) :
    0 < (WorldContextServiceExtended.buildNearbyPlayersInfo es sui agent
      range).length := by
  simp only [WorldContextServiceExtended.buildNearbyPlayersInfo]
  repeat' split
  all_goals first
    | decide
    | exact lt_of_lt_of_le (by decide) (joinSep_cons_length _ _ _)

theorem buildNearbyGeneratorsInfo_pos (sui : Option SuiService)
    (agent : GameAgent) (range : ℚ) :
    0 < (WorldContextServiceExtended.buildNearbyGeneratorsInfo sui agent
      range).length := by
  simp only [WorldContextServiceExtended.buildNearbyGeneratorsInfo]
  repeat' split
  all_goals first
    | decide
    | exact lt_of_lt_of_le (by decide) (joinSep_cons_length _ _ _)

theorem buildResourcesInfo_pos (sui : Option SuiService)
    (agent : GameAgent) :
    0 < (WorldContextServiceExtended.buildResourcesInfo sui agent).length := by
  simp only [WorldContextServiceExtended.buildResourcesInfo]
  repeat' split
  all_goals first
    | decide
    | exact lt_of_lt_of_le (by decide) (joinSep_cons_length _ _ _)

theorem buildTradeProposalsInfo_pos (sui : Option SuiService)
    (agent : GameAgent) :
    0 < (WorldContextServiceExtended.buildTradeProposalsInfo sui
      agent).length := by
  simp only [WorldContextServiceExtended.buildTradeProposalsInfo]
  repeat' split
  all_goals first
    | decide
    | exact lt_of_lt_of_le (by decide) (joinSep_cons_length _ _ _)

theorem buildWorldInfo_pos (world : GameWorld) (sui : Option SuiService) :
    0 < (WorldContextServiceExtended.buildWorldInfo world sui).length := by
  simp only [WorldContextServiceExtended.buildWorldInfo]
  repeat' split
  all_goals first
    | decide
    | exact lt_of_lt_of_le (by decide) (joinSep_cons_length _ _ _)

/-- The length-positivity filter of `generateAgentContext` never drops
a section: every builder emits at least its header, so `fullContext` is
always the blank-line join of all ten parts in their fixed order. -/
theorem generateAgentContext_fullContext (world : GameWorld)
    (es : Option ElasticsearchService) (sui : Option SuiService)
    (agent : GameAgent) (range : ℚ) :
    (WorldContextServiceExtended.generateAgentContext world es sui agent
      range).fullContext =
    joinSep "\n\n" ["=== CURRENT CONTEXT ===",
      WorldContextServiceExtended.buildSelfInfo sui agent,
      WorldContextServiceExtended.buildResourcesInfo sui agent,
      WorldContextServiceExtended.buildNearbyAgentsInfo world agent range,
      WorldContextServiceExtended.buildNearbyPlayersInfo es sui agent range,
      WorldContextServiceExtended.buildNearbyGeneratorsInfo sui agent range,
      WorldContextServiceExtended.buildNearbyItemsInfo world agent range,
      WorldContextServiceExtended.buildTradeProposalsInfo sui agent,
      WorldContextServiceExtended.buildWorldInfo world sui,
      "==================="] := by
  simp only [WorldContextServiceExtended.generateAgentContext]
  congr 1
  rw [List.filter_eq_self]
  intro s hs
  simp only [List.mem_cons, List.not_mem_nil, or_false] at hs
  rcases hs with rfl | rfl | rfl | rfl | rfl | rfl | rfl | rfl | rfl | rfl
  · decide
  · simpa using buildSelfInfo_pos sui agent
  · simpa using buildResourcesInfo_pos sui agent
  · simpa using buildNearbyAgentsInfo_pos world agent range
  · simpa using buildNearbyPlayersInfo_pos es sui agent range
  · simpa using buildNearbyGeneratorsInfo_pos sui agent range
  · simpa using buildNearbyItemsInfo_pos world agent range
  · simpa using buildTradeProposalsInfo_pos sui agent
  · simpa using buildWorldInfo_pos world sui
  · decide

/-- C8: the synthesized full context always concatenates its ten parts
(header, self status, resources, nearby NPCs, nearby players, nearby
generators, nearby items, trade proposals, world information, footer)
in this fixed order with blank-line separation, whatever the
availability of the optional collaborators and whatever they return:
data availability changes only section content, never position or
presence. -/
theorem C8_sections_fixed_order (world : GameWorld)
    (es : Option ElasticsearchService) (sui : Option SuiService)
    (agent : GameAgent) (range : ℚ) :
    (WorldContextServiceExtended.generateAgentContext world es sui agent
      range).fullContext =
    joinSep "\n\n" ["=== CURRENT CONTEXT ===",
      WorldContextServiceExtended.buildSelfInfo sui agent,
      WorldContextServiceExtended.buildResourcesInfo sui agent,
      WorldContextServiceExtended.buildNearbyAgentsInfo world agent range,
      WorldContextServiceExtended.buildNearbyPlayersInfo es sui agent range,
      WorldContextServiceExtended.buildNearbyGeneratorsInfo sui agent range,
      WorldContextServiceExtended.buildNearbyItemsInfo world agent range,
      WorldContextServiceExtended.buildTradeProposalsInfo sui agent,
      WorldContextServiceExtended.buildWorldInfo world sui,
      "==================="] :=
  generateAgentContext_fullContext world es sui agent range

/-- C4: with both optional collaborators absent the synthesis is a
total function (never throws); each collaborator-backed section is the
fixed "unavailable" placeholder, the self-status section is still
produced (headed by its fixed header), and the full context still
contains it. -/
theorem C4_missing_collaborators (world : GameWorld) (agent : GameAgent)
    (range : ℚ) :
    (WorldContextServiceExtended.generateAgentContext world none none agent
      range).resourcesInfo = "YOUR RESOURCES:\n- Resource tracking not available" ∧
    (WorldContextServiceExtended.generateAgentContext world none none agent
      range).nearbyPlayers = "NEARBY PLAYERS:\n- Player tracking not available" ∧
    (WorldContextServiceExtended.generateAgentContext world none none agent
      range).nearbyGenerators = "NEARBY GENERATORS:\n- Generator tracking not available" ∧
    (WorldContextServiceExtended.generateAgentContext world none none agent
      range).tradeProposals = "TRADE PROPOSALS:\n- Trading not available" ∧
    (∃ rest, (WorldContextServiceExtended.generateAgentContext world none
      none agent range).selfInfo = "YOUR CURRENT STATUS:" ++ "\n" ++ rest) ∧
    (∃ pre post, (WorldContextServiceExtended.generateAgentContext world
      none none agent range).fullContext =
        pre ++ (WorldContextServiceExtended.generateAgentContext world none
          none agent range).selfInfo ++ post) := by
  refine ⟨rfl, rfl, rfl, rfl, ⟨_, rfl⟩, ?_⟩
  rw [generateAgentContext_fullContext]
  refine ⟨"=== CURRENT CONTEXT ===" ++ "\n\n",
    "\n\n" ++ joinSep "\n\n"
      [WorldContextServiceExtended.buildResourcesInfo none agent,
       WorldContextServiceExtended.buildNearbyAgentsInfo world agent range,
       WorldContextServiceExtended.buildNearbyPlayersInfo none none agent range,
       WorldContextServiceExtended.buildNearbyGeneratorsInfo none agent range,
       WorldContextServiceExtended.buildNearbyItemsInfo world agent range,
       WorldContextServiceExtended.buildTradeProposalsInfo none agent,
       WorldContextServiceExtended.buildWorldInfo world none,
       "==================="], ?_⟩
  simp only [WorldContextServiceExtended.generateAgentContext, joinSep,
    String.append_assoc]
